import Mathlib

/-!
Shallow embedding of the socketio-im-demo chat server core
(internal/handlers/socketio.go, internal/services/redis.go,
internal/models/message.go), together with theorems checking the
natural-language specification against it.

Go maps are modelled as association lists with at most one binding per
key (insert overwrites in place, erase removes the key); Redis is
modelled as a record of such maps, one per key prefix (the prefixes
`message:`, `user_session:`, `room_members:` partition the keyspace),
plus the list of envelopes published on the `messages` pub/sub channel.
Socket.IO emits are reified as an `Emit` event list: `server.To(Room r).Emit`
becomes `Emit.toRoom r`, `server.Emit` becomes `Emit.toAll`, and
`client.Emit` becomes `Emit.toClient sid` (each socket joins its private
room named by its session id at connection time, so `To(Room sid)`
addresses exactly that socket).
-/

namespace IMDemo

/-! ### Association lists standing for Go maps -/

namespace GoMap

def lookup {α : Type} : List (String × α) → String → Option α
  | [], _ => none
  | (k, v) :: rest, key => if k = key then some v else lookup rest key

/-- `m[k] = v` for a Go map: overwrite in place if the key exists, else append. -/
def insert {α : Type} : List (String × α) → String → α → List (String × α)
  | [], key, val => [(key, val)]
  | (k, v) :: rest, key, val =>
      if k = key then (key, val) :: rest else (k, v) :: insert rest key val

/-- `delete(m, k)` for a Go map: drop every binding of the key (at most
one exists in any state reachable from the empty map). -/
def erase {α : Type} : List (String × α) → String → List (String × α)
  | [], _ => []
  | (k, v) :: rest, key =>
      if k = key then erase rest key else (k, v) :: erase rest key

/-- Lookup with a default, standing for Go's zero-value map read. -/
def lookupD {α : Type} (l : List (String × α)) (key : String) (d : α) : α :=
  (lookup l key).getD d

theorem lookup_insert_self {α : Type} (l : List (String × α)) (k : String) (v : α) :
    lookup (insert l k v) k = some v := by
  induction l with
  | nil => simp [insert, lookup]
  | cons p rest ih =>
      obtain ⟨k', v'⟩ := p
      by_cases h : k' = k
      · simp [insert, h, lookup]
      · simp [insert, h, lookup, ih]

theorem lookup_insert_ne {α : Type} (l : List (String × α)) (k k' : String) (v : α)
    (h : k ≠ k') : lookup (insert l k v) k' = lookup l k' := by
  induction l with
  | nil => simp [insert, lookup, h]
  | cons p rest ih =>
      obtain ⟨k'', v''⟩ := p
      by_cases h2 : k'' = k
      · subst h2
        simp [insert, lookup, h]
      · by_cases h3 : k'' = k'
        · simp [insert, h2, lookup, h3, Ne.symm h]
        · simp [insert, h2, lookup, h3, ih]

theorem lookup_erase_self {α : Type} (l : List (String × α)) (k : String) :
    lookup (erase l k) k = none := by
  induction l with
  | nil => simp [erase, lookup]
  | cons p rest ih =>
      obtain ⟨k', v'⟩ := p
      by_cases h : k' = k
      · simpa [erase, h] using ih
      · simpa [erase, lookup, h] using ih

theorem lookup_erase_ne {α : Type} (l : List (String × α)) (k k' : String)
    (h : k ≠ k') : lookup (erase l k) k' = lookup l k' := by
  induction l with
  | nil => simp [erase, lookup]
  | cons p rest ih =>
      obtain ⟨k'', v''⟩ := p
      by_cases h2 : k'' = k
      · subst h2
        simp [erase, lookup, h, ih]
      · by_cases h3 : k'' = k'
        · simp [erase, lookup, h2, h3, Ne.symm h]
        · simp [erase, lookup, h2, h3, ih]

theorem lookup_append {α : Type} (l₁ l₂ : List (String × α)) (k : String) :
    lookup (l₁ ++ l₂) k = (lookup l₁ k).or (lookup l₂ k) := by
  induction l₁ with
  | nil => simp [lookup]
  | cons p rest ih =>
      obtain ⟨k', v'⟩ := p
      by_cases h : k' = k
      · simp [lookup, h]
      · simp [lookup, h, ih]

theorem lookup_eq_none_iff {α : Type} (l : List (String × α)) (k : String) :
    lookup l k = none ↔ k ∉ l.map Prod.fst := by
  induction l with
  | nil => simp [lookup]
  | cons p rest ih =>
      obtain ⟨k', v'⟩ := p
      by_cases h : k' = k
      · simp [lookup, h]
      · simp [lookup, h, ih, Ne.symm h]

theorem lookup_mem {α : Type} {l : List (String × α)} {k : String} {v : α}
    (h : lookup l k = some v) : (k, v) ∈ l := by
  induction l with
  | nil => simp [lookup] at h
  | cons p rest ih =>
      obtain ⟨k', v'⟩ := p
      by_cases h2 : k' = k
      · subst h2
        simp [lookup] at h
        simp [h]
      · simp [lookup, h2] at h
        exact List.mem_cons_of_mem _ (ih h)

end GoMap

/-! ### Data model (internal/models/message.go) -/

/-- `models.Message`. `Receiver` and `Room` use `""` for the absent
(`omitempty`) value, as the Go handler does; the `Metadata` field is not
needed by any claim and is omitted. Timestamps are abstract `Nat` ticks. -/
structure Message where
  id : String
  type : String
  content : String
  sender : String
  receiver : String
  room : String
  timestamp : Nat
deriving DecidableEq, Repr

/-- `models.User` as built by the `join` handler: `Metadata` carries
`deviceInfo` and `sessionId`, flattened here into fields. -/
structure User where
  id : String
  name : String
  avatar : String
  status : String
  lastSeen : Nat
  deviceInfo : String
  sessionId : String
deriving DecidableEq, Repr

/-! ### Outbound events -/

/-- The payload of an outbound Socket.IO emit, one constructor per emit
site in socketio.go. Direct (receiver-targeted) messages are wrapped in a
`{"message": ...}` object by `broadcastMessage`, hence the separate
`msgWrap` form. -/
inductive Payload where
  | msg (m : Message)
  | msgWrap (m : Message)
  | userStatus (userName status : String)
  | joined (userId userName deviceInfo status : String) (deviceCount : Nat)
  | deviceConn (deviceInfo sessionId : String) (deviceCount : Nat)
  | deviceDisc (sessionId : String) (deviceCount : Nat)
  | err (message : String)
deriving DecidableEq, Repr

/-- An outbound emit. `toRoom` is `server.To(Room r).Emit`, `toAll` is
`server.Emit`, `toClient` is `client.Emit` on the handling socket. -/
inductive Emit where
  | toRoom (room : String) (event : String) (p : Payload)
  | toAll (event : String) (p : Payload)
  | toClient (sessionId : String) (event : String) (p : Payload)
deriving DecidableEq, Repr

/-! ### Redis state (internal/services/redis.go) -/

/-- The observable Redis state: the `message:*`, `user_session:*` and
`room_members:*` keys (keyed by the unprefixed id, the prefixes keep them
disjoint) and the stream of envelopes published on the pub/sub bus. -/
structure RedisState where
  messages : List (String × Message)
  userSession : List (String × String)
  roomMembers : List (String × List String)
  published : List (String × Message)
deriving DecidableEq, Repr

def RedisState.empty : RedisState :=
  { messages := [], userSession := [], roomMembers := [], published := [] }

/-- `RedisService.PublishMessage`: publish the marshalled message on a channel. -/
def publishMessage (r : RedisState) (channel : String) (m : Message) : RedisState :=
  { r with published := r.published ++ [(channel, m)] }

/-- `RedisService.StoreMessage`: `SET message:<id> <json>` (expiry not modelled). -/
def storeMessage (r : RedisState) (m : Message) : RedisState :=
  { r with messages := GoMap.insert r.messages m.id m }

/-- `RedisService.StoreUserSession`: `SET user_session:<user> <sessionID>` —
a plain SET, so the key holds a single session id and each write overwrites. -/
def storeUserSession (r : RedisState) (userID sessionID : String) : RedisState :=
  { r with userSession := GoMap.insert r.userSession userID sessionID }

/-- `RedisService.DeleteUserSession`: `DEL user_session:<user>`. -/
def deleteUserSession (r : RedisState) (userID : String) : RedisState :=
  { r with userSession := GoMap.erase r.userSession userID }

/-- `RedisService.AddUserToRoom`: `SADD room_members:<room> <user>`. -/
def addUserToRoom (r : RedisState) (roomID userID : String) : RedisState :=
  let cur := GoMap.lookupD r.roomMembers roomID []
  let cur' := if userID ∈ cur then cur else cur ++ [userID]
  { r with roomMembers := GoMap.insert r.roomMembers roomID cur' }

/-- `RedisService.RemoveUserFromRoom`: `SREM room_members:<room> <user>`. -/
def removeUserFromRoom (r : RedisState) (roomID userID : String) : RedisState :=
  let cur := GoMap.lookupD r.roomMembers roomID []
  { r with roomMembers := GoMap.insert r.roomMembers roomID (cur.filter (· ≠ userID)) }

/-! ### Handler state (SocketIOHandler) -/

/-- The two in-memory maps of `SocketIOHandler`:
`sessions : session_id -> user` and `userSessions : username -> session ids`. -/
structure HandlerState where
  sessions : List (String × User)
  userSessions : List (String × List String)
deriving DecidableEq, Repr

def HandlerState.empty : HandlerState := { sessions := [], userSessions := [] }

/-- The registry's device list for one identity (`h.userSessions[userName]`,
the zero value `[]` when absent). -/
def devicesOf (st : HandlerState) (userName : String) : List String :=
  GoMap.lookupD st.userSessions userName []

/-- Go's in-place removal of the first occurrence of `sessionID` from a
slice (`append(sessions[:i], sessions[i+1:]...)` followed by `break`). -/
def removeFirst : List String → String → List String
  | [], _ => []
  | x :: rest, a => if x = a then rest else x :: removeFirst rest a

/-- `broadcastToUserDevices`: one `server.To(Room sessionID).Emit` per
session in the user's list, skipping `excludeSessionID` when it is nonempty. -/
def broadcastToUserDevices (st : HandlerState) (userName event : String)
    (data : Payload) (excludeSessionID : String) : List Emit :=
  match GoMap.lookup st.userSessions userName with
  | none => []
  | some sids =>
      (sids.filter (fun sid => ¬(excludeSessionID ≠ "" ∧ sid = excludeSessionID))).map
        (fun sid => Emit.toRoom sid event data)

/-- `broadcastMessage`: room broadcast if `Room` is set, else direct
delivery to the receiver's devices if `Receiver` is set, else global emit. -/
def broadcastMessage (st : HandlerState) (m : Message) : List Emit :=
  if m.room ≠ "" then
    [Emit.toRoom m.room "message" (Payload.msg m)]
  else if m.receiver ≠ "" then
    broadcastToUserDevices st m.receiver "message" (Payload.msgWrap m) ""
  else
    [Emit.toAll "message" (Payload.msg m)]

/-- `broadcastUserStatus`: a global `user_status` emit. -/
def broadcastUserStatus (userName status : String) : List Emit :=
  [Emit.toAll "user_status" (Payload.userStatus userName status)]

/-- `sendError`: an `error` emit on the originating socket only. -/
def sendError (clientSid message : String) : List Emit :=
  [Emit.toClient clientSid "error" (Payload.err message)]

/-! ### The `join` event handler -/

/-- The `join` event handler: validate the user name, build the `User`
record, store the session, append to the identity's device list, write the
session id to Redis (return value ignored, as in the source), broadcast
`online` when this is the first device, confirm to the client, and notify
the identity's other devices. Returns the updated handler state, the
updated Redis state, and the emitted events in program order. -/
def handleJoin (st : HandlerState) (r : RedisState) (sessionID : String)
    (userName deviceInfo avatar : String) (now : Nat) :
    HandlerState × RedisState × List Emit :=
  if userName = "" then
    (st, r, sendError sessionID "User name is required")
  else
    let deviceInfo' := if deviceInfo = "" then "Unknown Device" else deviceInfo
    let user : User :=
      { id := userName, name := userName, avatar := avatar, status := "online",
        lastSeen := now, deviceInfo := deviceInfo', sessionId := sessionID }
    let sessions' := GoMap.insert st.sessions sessionID user
    let newList := GoMap.lookupD st.userSessions userName [] ++ [sessionID]
    let userSessions' := GoMap.insert st.userSessions userName newList
    let st' : HandlerState := { sessions := sessions', userSessions := userSessions' }
    let r' := storeUserSession r userName sessionID
    let statusEmits := if newList.length = 1 then broadcastUserStatus userName "online" else []
    let joinedEmit :=
      [Emit.toClient sessionID "joined"
        (Payload.joined userName userName deviceInfo' "online" newList.length)]
    let deviceEmits :=
      broadcastToUserDevices st' userName "device_connected"
        (Payload.deviceConn deviceInfo' sessionID newList.length) sessionID
    (st', r', statusEmits ++ joinedEmit ++ deviceEmits)

/-! ### The `disconnect` event handler -/

/-- The `disconnect` event handler (the disconnect reason only feeds a log
line and is not modelled): if the session is registered, remove it from
its user's device list (first occurrence, then `break`); when the list
empties, drop the user entry, delete the Redis session key and broadcast
`offline`; otherwise notify the user's remaining devices; finally delete
the session entry. Unregistered sessions are a complete no-op. -/
def handleDisconnect (st : HandlerState) (r : RedisState) (sessionID : String) :
    HandlerState × RedisState × List Emit :=
  match GoMap.lookup st.sessions sessionID with
  | none => (st, r, [])
  | some user =>
      let userName := user.id
      match GoMap.lookup st.userSessions userName with
      | none =>
          ({ st with sessions := GoMap.erase st.sessions sessionID }, r, [])
      | some sids =>
          let sids' := removeFirst sids sessionID
          if sids'.length = 0 then
            ({ sessions := GoMap.erase st.sessions sessionID,
               userSessions := GoMap.erase st.userSessions userName },
             deleteUserSession r userName,
             broadcastUserStatus userName "offline")
          else
            let st' : HandlerState :=
              { sessions := GoMap.erase st.sessions sessionID,
                userSessions := GoMap.insert st.userSessions userName sids' }
            (st', r,
             broadcastToUserDevices
               { st with userSessions := GoMap.insert st.userSessions userName sids' }
               userName "device_disconnected"
               (Payload.deviceDisc sessionID sids'.length) "")

/-! ### The `message` event handler -/

/-- The fields the handler extracts from the inbound `message` event data
(a missing or non-string field type-asserts to `""` in the source). -/
structure MessageData where
  type : String
  content : String
  sender : String
  roomId : String
  receiver : String
deriving DecidableEq, Repr

/-- The body of `handleMessage`'s `for i := 0; i < 10; i++` loop. Each
iteration builds a fresh message (id from `generateMessageID`, modelled by
the injected `genID`), stores it in Redis — aborting with an error emit to
the client if the store fails (`storeOk i` says whether the i-th store
call succeeds) — then appends `"Message <i>"` to the content and
broadcasts the mutated copy. `fuel` is the number of remaining iterations. -/
def handleMessageLoop (st : HandlerState) (storeOk : Nat → Bool)
    (genID : Nat → String) (now : Nat) (clientSid : String) (d : MessageData) :
    RedisState → Nat → Nat → RedisState × List Emit
  | r, _, 0 => (r, [])
  | r, i, fuel + 1 =>
      let message : Message :=
        { id := genID i, type := d.type, content := d.content, sender := d.sender,
          receiver := d.receiver, room := d.roomId, timestamp := now }
      if storeOk i then
        let r' := storeMessage r message
        let message' := { message with content := message.content ++ "Message " ++ toString i }
        let emits := broadcastMessage st message'
        let rest := handleMessageLoop st storeOk genID now clientSid d r' (i + 1) fuel
        (rest.1, emits ++ rest.2)
      else
        (r, sendError clientSid "Failed to send message")

/-- `handleMessage`: validate non-empty content and sender (failing with
an error emit to the originating socket only), then run the 10-iteration
store-and-broadcast loop. The handler never touches `sessions` or
`userSessions`, so the handler state is returned unchanged. -/
def handleMessage (st : HandlerState) (r : RedisState) (storeOk : Nat → Bool)
    (genID : Nat → String) (now : Nat) (clientSid : String) (d : MessageData) :
    HandlerState × RedisState × List Emit :=
  if d.content = "" ∨ d.sender = "" then
    (st, r, sendError clientSid "Invalid message data")
  else
    let res := handleMessageLoop st storeOk genID now clientSid d r 0 10
    (st, res.1, res.2)

/-! ### The Redis relay subscriber -/

/-- The standing subscription (`subscribeToRedis` → `SubscribeToMessages`
→ `SubscribeToChannel`): every well-formed envelope received on the
`messages` channel is handed to `h.broadcastMessage`, with no memory
between deliveries. `envelopes` is the sequence of decoded payloads. -/
def subscribeProcess (st : HandlerState) (envelopes : List Message) : List Emit :=
  envelopes.flatMap (broadcastMessage st)

/-- The messages carried by the `message`-event emits of an emit list
(both the plain and the wrapped direct-delivery form). -/
def msgEmitsOf (es : List Emit) : List Message :=
  es.filterMap fun e =>
    match e with
    | Emit.toRoom _ ev (Payload.msg m) => if ev = "message" then some m else none
    | Emit.toRoom _ ev (Payload.msgWrap m) => if ev = "message" then some m else none
    | Emit.toAll ev (Payload.msg m) => if ev = "message" then some m else none
    | Emit.toAll ev (Payload.msgWrap m) => if ev = "message" then some m else none
    | _ => none

/-! ### Registry replay -/

/-- A registry operation: a `join` event or a disconnect. -/
inductive RegOp where
  | join (sessionID userName deviceInfo avatar : String)
  | leave (sessionID : String)
deriving DecidableEq, Repr

/-- Apply one registry operation to the handler and Redis state,
discarding the emitted events. -/
def applyOp (sr : HandlerState × RedisState) : RegOp → HandlerState × RedisState
  | RegOp.join sid u dev av =>
      let res := handleJoin sr.1 sr.2 sid u dev av 0
      (res.1, res.2.1)
  | RegOp.leave sid =>
      let res := handleDisconnect sr.1 sr.2 sid
      (res.1, res.2.1)

/-- Replay a sequence of registry operations. -/
def replayOps (sr : HandlerState × RedisState) (ops : List RegOp) :
    HandlerState × RedisState :=
  ops.foldl applyOp sr

/-! ### The specification's registry model

The spec's replay semantics ("`devicesOf(identity)` after replay equals
the live set of sessions joined-but-not-left, in join order"), modelled
as a list of live `(sessionID, identity)` pairs in join order: a join
appends, a leave removes the session's pairs. These definitions follow
the spec's words, for comparison with the code model above. -/

/-- One spec-side replay step. A leave removes every pair of that session
id (`GoMap.erase` keeps exactly the pairs whose key differs). -/
def specStep (live : List (String × String)) : RegOp → List (String × String)
  | RegOp.join sid u _ _ => if u = "" then live else live ++ [(sid, u)]
  | RegOp.leave sid => GoMap.erase live sid

/-- Spec-side replay of a whole sequence. -/
def specReplay (live : List (String × String)) (ops : List RegOp) :
    List (String × String) :=
  ops.foldl specStep live

/-- The spec-side device list: the live sessions of the identity, in join
order. -/
def specDevicesOf (live : List (String × String)) (u : String) : List String :=
  (live.filter (fun p => p.2 = u)).map Prod.fst

/-- Well-formedness of an operation sequence: every join is for a session
id not currently registered (session ids are unique per live connection,
assigned by the transport). -/
def wf : List (String × String) → List RegOp → Bool
  | _, [] => true
  | live, op :: ops =>
      (match op with
       | RegOp.join sid u _ _ =>
           decide (u = "") || !decide (sid ∈ live.map Prod.fst)
       | RegOp.leave _ => true)
      && wf (specStep live op) ops

/-! ### Helper lemmas -/

theorem removeFirst_eq_nil_iff (l : List String) (a : String) :
    removeFirst l a = [] ↔ (l = [] ∨ l = [a]) := by
  cases l with
  | nil => simp [removeFirst]
  | cons x rest =>
      by_cases h : x = a
      · subst h
        simp [removeFirst]
      · simp [removeFirst, h]

theorem removeFirst_eq_filter {l : List String} (a : String) (h : l.Nodup) :
    removeFirst l a = l.filter (· ≠ a) := by
  induction l with
  | nil => simp [removeFirst]
  | cons x rest ih =>
      by_cases h2 : x = a
      · subst h2
        have hx : x ∉ rest := (List.nodup_cons.mp h).1
        simp [removeFirst]
        exact ((List.filter_eq_self).mpr (fun b hb => by
          simp
          exact fun hba => hx (hba ▸ hb))).symm
      · simp [removeFirst, h2, ih (List.nodup_cons.mp h).2]

theorem mem_removeFirst {l : List String} {a s : String}
    (h : s ∈ removeFirst l a) : s ∈ l := by
  induction l with
  | nil => simp [removeFirst] at h
  | cons x rest ih =>
      by_cases h2 : x = a
      · subst h2
        simp [removeFirst] at h
        simp [h]
      · simp [removeFirst, h2] at h
        rcases h with h | h
        · simp [h]
        · simp [ih h]

theorem GoMap.erase_eq_filter {α : Type} (l : List (String × α)) (k : String) :
    GoMap.erase l k = l.filter (fun p => p.1 ≠ k) := by
  induction l with
  | nil => simp [GoMap.erase]
  | cons p rest ih =>
      obtain ⟨k', v'⟩ := p
      by_cases h : k' = k
      · simp [GoMap.erase, h, ih]
      · simp [GoMap.erase, h, ih]

theorem specDevicesOf_append (live : List (String × String)) (sid u u' : String) :
    specDevicesOf (live ++ [(sid, u)]) u'
      = specDevicesOf live u' ++ (if u = u' then [sid] else []) := by
  by_cases h : u = u' <;> simp [specDevicesOf, List.filter_append, h]

theorem specDevicesOf_filter_fst (live : List (String × String)) (sid u : String) :
    specDevicesOf (live.filter (fun p => p.1 ≠ sid)) u
      = (specDevicesOf live u).filter (· ≠ sid) := by
  induction live with
  | nil => simp [specDevicesOf]
  | cons p rest ih =>
      obtain ⟨a, b⟩ := p
      by_cases h1 : a = sid
      · subst h1
        by_cases h2 : b = u <;> simp [specDevicesOf, h2, ih] <;>
          simpa [specDevicesOf] using ih
      · by_cases h2 : b = u <;> simp [specDevicesOf, h1, h2] <;>
          simpa [specDevicesOf] using ih

theorem nodup_specDevicesOf {live : List (String × String)}
    (h : (live.map Prod.fst).Nodup) (u : String) : (specDevicesOf live u).Nodup := by
  have hsub : (specDevicesOf live u).Sublist (live.map Prod.fst) := by
    simpa [specDevicesOf] using
      ((live.filter_sublist (p := fun p => p.2 = u)).map Prod.fst)
  exact h.sublist hsub

theorem mem_specDevicesOf_of_lookup {live : List (String × String)} {sid u : String}
    (h : GoMap.lookup live sid = some u) : sid ∈ specDevicesOf live u := by
  have hm : (sid, u) ∈ live := GoMap.lookup_mem h
  exact List.mem_map.mpr ⟨(sid, u), List.mem_filter.mpr ⟨hm, by simp⟩, rfl⟩

theorem nodup_fst_value_eq {live : List (String × String)} {k a b : String}
    (h : (live.map Prod.fst).Nodup) (h1 : (k, a) ∈ live) (h2 : (k, b) ∈ live) :
    a = b := by
  induction live with
  | nil => simp at h1
  | cons p rest ih =>
      obtain ⟨k', c⟩ := p
      simp at h
      rcases List.mem_cons.mp h1 with he1 | ht1
      · rcases List.mem_cons.mp h2 with he2 | ht2
        · cases he1
          cases he2
          rfl
        · cases he1
          exact absurd (List.mem_map_of_mem Prod.fst ht2) (by simpa using h.1)
      · rcases List.mem_cons.mp h2 with he2 | ht2
        · cases he2
          exact absurd (List.mem_map_of_mem Prod.fst ht1) (by simpa using h.1)
        · exact ih h.2 ht1 ht2

theorem not_mem_specDevicesOf {live : List (String × String)} {sid u u' : String}
    (hnd : (live.map Prod.fst).Nodup) (h : GoMap.lookup live sid = some u)
    (hne : u' ≠ u) : sid ∉ specDevicesOf live u' := by
  intro hmem
  obtain ⟨⟨a, b⟩, hpf, hfst⟩ := List.mem_map.mp hmem
  obtain ⟨hmem2, hbu⟩ := List.mem_filter.mp hpf
  have hb : b = u' := by simpa using hbu
  have ha : a = sid := hfst
  subst hb
  subst ha
  exact hne (nodup_fst_value_eq hnd hmem2 (GoMap.lookup_mem h))

theorem filter_fst_eq_self {α : Type} {live : List (String × α)} {sid : String}
    (h : sid ∉ live.map Prod.fst) :
    live.filter (fun p => p.1 ≠ sid) = live := by
  refine List.filter_eq_self.mpr (fun p hp => ?_)
  simp
  intro hps
  exact h (hps ▸ List.mem_map_of_mem Prod.fst hp)

theorem filter_ne_eq_self {xs : List String} {sid : String} (h : sid ∉ xs) :
    xs.filter (· ≠ sid) = xs := by
  refine List.filter_eq_self.mpr (fun b hb => ?_)
  simp
  intro hbs
  exact h (hbs ▸ hb)

/-! ### Transition characterization lemmas -/

theorem devicesOf_join (st : HandlerState) (r : RedisState)
    (sid u dev av u' : String) (now : Nat) (hu : u ≠ "") :
    devicesOf (handleJoin st r sid u dev av now).1 u'
      = if u' = u then devicesOf st u ++ [sid] else devicesOf st u' := by
  by_cases h : u' = u
  · subst h
    simp [handleJoin, hu, devicesOf, GoMap.lookupD, GoMap.lookup_insert_self]
  · simp [handleJoin, hu, devicesOf, GoMap.lookupD, h,
      GoMap.lookup_insert_ne _ _ _ _ (Ne.symm h)]

theorem sessions_join (st : HandlerState) (r : RedisState)
    (sid u dev av : String) (now : Nat) (hu : u ≠ "") (sid' : String) :
    GoMap.lookup (handleJoin st r sid u dev av now).1.sessions sid'
      = if sid' = sid
        then some { id := u, name := u, avatar := av, status := "online",
                    lastSeen := now, sessionId := sid,
                    deviceInfo := (if dev = "" then "Unknown Device" else dev) }
        else GoMap.lookup st.sessions sid' := by
  by_cases h : sid' = sid
  · subst h
    simp [handleJoin, hu, GoMap.lookup_insert_self]
  · simp [handleJoin, hu, h, GoMap.lookup_insert_ne _ _ _ _ (Ne.symm h)]

/-! ### The registry invariant -/

/-- Correspondence between the handler's two registry maps and the spec's
live-session list: device lists agree, session-to-identity resolution
agrees, and live session ids are pairwise distinct. -/
def Inv (st : HandlerState) (live : List (String × String)) : Prop :=
  (∀ u, devicesOf st u = specDevicesOf live u) ∧
  (∀ sid, (GoMap.lookup st.sessions sid).map User.id = GoMap.lookup live sid) ∧
  (live.map Prod.fst).Nodup

theorem inv_join (st : HandlerState) (r : RedisState) (live : List (String × String))
    (sid u dev av : String) (now : Nat) (hInv : Inv st live)
    (hfresh : u = "" ∨ sid ∉ live.map Prod.fst) :
    Inv (handleJoin st r sid u dev av now).1 (specStep live (RegOp.join sid u dev av)) := by
  obtain ⟨hdev, hsess, hnd⟩ := hInv
  by_cases hu : u = ""
  · simp only [specStep, if_pos hu]
    simp [handleJoin, hu]
    exact ⟨hdev, hsess, hnd⟩
  · have hfr : sid ∉ live.map Prod.fst := hfresh.resolve_left hu
    refine ⟨?_, ?_, ?_⟩
    · intro u'
      rw [devicesOf_join st r sid u dev av u' now hu]
      simp only [specStep, if_neg hu]
      rw [specDevicesOf_append]
      by_cases h : u' = u
      · subst h
        simp [hdev u']
      · simp [h, Ne.symm h, hdev u']
    · intro sid'
      rw [sessions_join st r sid u dev av now hu sid']
      simp only [specStep, if_neg hu]
      rw [GoMap.lookup_append]
      by_cases h : sid' = sid
      · subst h
        have hnone : GoMap.lookup live sid' = none :=
          (GoMap.lookup_eq_none_iff _ _).mpr hfr
        simp [hnone, GoMap.lookup]
      · have hnone : GoMap.lookup [(sid, u)] sid' = none := by
          simp [GoMap.lookup, Ne.symm h]
        simp [h, hnone, hsess sid']
    · simp only [specStep, if_neg hu, List.map_append, List.map_cons, List.map_nil]
      rw [List.nodup_append]
      exact ⟨hnd, List.nodup_singleton _, by simpa [List.disjoint_singleton] using hfr⟩

theorem specDevicesOf_erase (live : List (String × String)) (sid u : String) :
    specDevicesOf (GoMap.erase live sid) u = (specDevicesOf live u).filter (· ≠ sid) := by
  rw [GoMap.erase_eq_filter]
  exact specDevicesOf_filter_fst live sid u

theorem nodup_fst_erase {live : List (String × String)} {sid : String}
    (h : (live.map Prod.fst).Nodup) :
    ((GoMap.erase live sid).map Prod.fst).Nodup := by
  rw [GoMap.erase_eq_filter]
  exact h.sublist ((live.filter_sublist).map Prod.fst)

theorem erase_eq_self_of_not_mem {α : Type} {live : List (String × α)} {sid : String}
    (h : sid ∉ live.map Prod.fst) : GoMap.erase live sid = live := by
  rw [GoMap.erase_eq_filter]
  exact filter_fst_eq_self h

theorem inv_leave (st : HandlerState) (r : RedisState) (live : List (String × String))
    (sid : String) (hInv : Inv st live) :
    Inv (handleDisconnect st r sid).1 (specStep live (RegOp.leave sid)) := by
  obtain ⟨hdev, hsess, hnd⟩ := hInv
  have hnderase : ((GoMap.erase live sid).map Prod.fst).Nodup := nodup_fst_erase hnd
  cases hlook : GoMap.lookup st.sessions sid with
  | none =>
      have hlive : GoMap.lookup live sid = none := by
        have h := hsess sid
        rw [hlook] at h
        simpa using h.symm
      have hfilter : GoMap.erase live sid = live :=
        erase_eq_self_of_not_mem ((GoMap.lookup_eq_none_iff _ _).mp hlive)
      simp only [specStep, hfilter]
      simp [handleDisconnect, hlook]
      exact ⟨hdev, hsess, hnd⟩
  | some user =>
      have hlive : GoMap.lookup live sid = some user.id := by
        have h := hsess sid
        rw [hlook] at h
        simpa using h.symm
      have hmemdev : sid ∈ devicesOf st user.id := by
        rw [hdev user.id]
        exact mem_specDevicesOf_of_lookup hlive
      cases hlk2 : GoMap.lookup st.userSessions user.id with
      | none =>
          exfalso
          rw [devicesOf, GoMap.lookupD, hlk2] at hmemdev
          simp at hmemdev
      | some l =>
          have hdevl : devicesOf st user.id = l := by
            rw [devicesOf, GoMap.lookupD, hlk2]
            rfl
          have hlnd : l.Nodup := by
            rw [← hdevl, hdev user.id]
            exact nodup_specDevicesOf hnd user.id
          have hrf : removeFirst l sid = l.filter (· ≠ sid) :=
            removeFirst_eq_filter sid hlnd
          have hspec_other : ∀ u', u' ≠ user.id →
              specDevicesOf (GoMap.erase live sid) u' = specDevicesOf live u' := by
            intro u' hne
            rw [specDevicesOf_erase]
            exact filter_ne_eq_self (not_mem_specDevicesOf hnd hlive hne)
          have hspec_self :
              specDevicesOf (GoMap.erase live sid) user.id = removeFirst l sid := by
            rw [specDevicesOf_erase, hrf, ← hdev user.id, hdevl]
          have hsess' : ∀ sid',
              GoMap.lookup (GoMap.erase live sid) sid'
                = (GoMap.lookup (GoMap.erase st.sessions sid) sid').map User.id := by
            intro sid'
            by_cases h : sid' = sid
            · subst h
              rw [GoMap.lookup_erase_self, GoMap.lookup_erase_self]
              rfl
            · rw [GoMap.lookup_erase_ne _ _ _ (fun hh => h hh.symm),
                GoMap.lookup_erase_ne _ _ _ (fun hh => h hh.symm)]
              exact (hsess sid').symm
          by_cases hlen : (removeFirst l sid).length = 0
          · have hnil : removeFirst l sid = [] := List.length_eq_zero.mp hlen
            simp only [specStep]
            simp [handleDisconnect, hlook, hlk2, hlen]
            refine ⟨?_, ?_, hnderase⟩
            · intro u'
              by_cases h : u' = user.id
              · subst h
                rw [hspec_self, hnil, devicesOf, GoMap.lookupD,
                  GoMap.lookup_erase_self]
                rfl
              · rw [hspec_other u' h, devicesOf, GoMap.lookupD,
                  GoMap.lookup_erase_ne _ _ _ (fun hh => h hh.symm)]
                exact hdev u'
            · intro sid'
              exact (hsess' sid').symm
          · simp only [specStep]
            simp [handleDisconnect, hlook, hlk2, hlen]
            refine ⟨?_, ?_, hnderase⟩
            · intro u'
              by_cases h : u' = user.id
              · subst h
                rw [hspec_self, devicesOf, GoMap.lookupD, GoMap.lookup_insert_self]
                rfl
              · rw [hspec_other u' h, devicesOf, GoMap.lookupD,
                  GoMap.lookup_insert_ne _ _ _ _ (fun hh => h hh.symm)]
                exact hdev u'
            · intro sid'
              exact (hsess' sid').symm

theorem handleMessageLoop_store_fail (st : HandlerState) (storeOk : Nat → Bool)
    (genID : Nat → String) (now : Nat) (sid : String) (d : MessageData)
    (r : RedisState) (i fuel : Nat) (hf : storeOk i = false) :
    handleMessageLoop st storeOk genID now sid d r i (fuel + 1)
      = (r, sendError sid "Failed to send message") := by
  simp [handleMessageLoop, hf]

theorem inv_replay (ops : List RegOp) :
    ∀ (st : HandlerState) (r : RedisState) (live : List (String × String)),
      Inv st live → wf live ops = true →
      Inv (replayOps (st, r) ops).1 (specReplay live ops) := by
  induction ops with
  | nil =>
      intro st r live hInv _
      simpa [replayOps, specReplay] using hInv
  | cons op rest ih =>
      intro st r live hInv hwf
      cases op with
      | join sid u dev av =>
          simp only [wf, Bool.and_eq_true, Bool.or_eq_true, decide_eq_true_eq,
            Bool.not_eq_true', decide_eq_false_iff_not] at hwf
          obtain ⟨hfr, hwf2⟩ := hwf
          have hstep := inv_join st r live sid u dev av 0 hInv hfr
          simpa [replayOps, specReplay, applyOp] using
            ih (handleJoin st r sid u dev av 0).1 (handleJoin st r sid u dev av 0).2.1
              (specStep live (RegOp.join sid u dev av)) hstep hwf2
      | leave sid =>
          simp only [wf, Bool.and_eq_true, Bool.true_and] at hwf
          have hstep := inv_leave st r live sid hInv
          simpa [replayOps, specReplay, applyOp] using
            ih (handleDisconnect st r sid).1 (handleDisconnect st r sid).2.1
              (specStep live (RegOp.leave sid)) hstep hwf

/-! ### Concrete inputs shared by the claim checks -/

/-- A deterministic stand-in for `generateMessageID` (which is wall-clock
derived in the source and injected as a parameter here). -/
def genId0 : Nat → String := fun i => "id" ++ toString i

/-- An always-available message store. -/
def storeAlwaysOk : Nat → Bool := fun _ => true

/-- An unavailable message store (every `StoreMessage` call fails). -/
def storeNeverOk : Nat → Bool := fun _ => false

/-! ## Claim C1 -/

/-- C1: the claim says one valid inbound `message` event produces exactly
one persisted and broadcast message whose content equals what the client
sent. The code instead runs a `for i := 0; i < 10; i++` loop: on the valid
broadcast input `{type: "text", content: "hi", sender: "alice"}` it emits
ten `message` events, none of which carries the original content `"hi"`
(each is mutated to `"hiMessage <i>"`), and persists ten copies. -/
theorem c1_message_duplicated_ten_times :
    (msgEmitsOf (handleMessage HandlerState.empty RedisState.empty storeAlwaysOk
        genId0 0 "sock1" ⟨"text", "hi", "alice", "", ""⟩).2.2).length = 10
  ∧ ((msgEmitsOf (handleMessage HandlerState.empty RedisState.empty storeAlwaysOk
        genId0 0 "sock1" ⟨"text", "hi", "alice", "", ""⟩).2.2).all
        (fun m => m.content ≠ "hi")) = true
  ∧ (handleMessage HandlerState.empty RedisState.empty storeAlwaysOk
        genId0 0 "sock1" ⟨"text", "hi", "alice", "", ""⟩).2.1.messages.length = 10 := by
  decide

/-! ## Claim C2 -/

/-- C2 counterexample: the claim says a persistence failure is only logged
and delivery proceeds with no error surfaced to the sender. On a valid
input with the store unavailable, `handleMessage` instead sends a
`"Failed to send message"` error event to the originating client and
returns: no `message` event is emitted and Redis is untouched. -/
theorem c2_counterexample :
    handleMessage HandlerState.empty RedisState.empty storeNeverOk genId0 0 "sock1"
        ⟨"text", "hi", "alice", "general", ""⟩
      = (HandlerState.empty, RedisState.empty,
         [Emit.toClient "sock1" "error" (Payload.err "Failed to send message")]) := by
  decide

/-- C2 (amended): if persisting the message fails, the handler logs, sends
a `"Failed to send message"` error event to the originating client, and
aborts the route — no delivery takes place and the store is unchanged. -/
theorem c2_store_failure_aborts_delivery (st : HandlerState) (r : RedisState)
    (storeOk : Nat → Bool) (genID : Nat → String) (now : Nat) (sid : String)
    (d : MessageData) (hc : d.content ≠ "") (hs : d.sender ≠ "")
    (hf : storeOk 0 = false) :
    handleMessage st r storeOk genID now sid d
      = (st, r, [Emit.toClient sid "error" (Payload.err "Failed to send message")]) := by
  have hvalid : ¬(d.content = "" ∨ d.sender = "") := by
    rintro (h | h)
    · exact hc h
    · exact hs h
  have h10 : (10 : Nat) = 9 + 1 := rfl
  simp only [handleMessage, if_neg hvalid, h10,
    handleMessageLoop_store_fail st storeOk genID now sid d r 0 9 hf, sendError]

/-- C2 witness. -/
theorem c2_witness :
    handleMessage HandlerState.empty RedisState.empty storeNeverOk genId0 0 "sock2"
        ⟨"text", "hello", "bob", "", ""⟩
      = (HandlerState.empty, RedisState.empty,
         [Emit.toClient "sock2" "error" (Payload.err "Failed to send message")]) :=
  c2_store_failure_aborts_delivery HandlerState.empty RedisState.empty storeNeverOk
    genId0 0 "sock2" ⟨"text", "hello", "bob", "", ""⟩ (by decide) (by decide) rfl

/-! ## Claim C3 -/

/-- C3: the claim says every room-targeted routed message is also
published on the Relay (the Redis `messages` channel) for sibling
instances. The code never calls `PublishMessage` from the message path:
routing a valid room-targeted message leaves the published stream empty
while delivering ten emits to the room locally. The last conjunct shows
the modelled `publishMessage` would have left a visible trace had it been
called. -/
theorem c3_room_message_never_published :
    (handleMessage HandlerState.empty RedisState.empty storeAlwaysOk genId0 0 "sock1"
        ⟨"text", "hi", "alice", "general", ""⟩).2.1.published = []
  ∧ ((handleMessage HandlerState.empty RedisState.empty storeAlwaysOk genId0 0 "sock1"
        ⟨"text", "hi", "alice", "general", ""⟩).2.2.all
        (fun e => match e with
          | Emit.toRoom rm ev _ => rm == "general" && ev == "message"
          | _ => false)) = true
  ∧ (handleMessage HandlerState.empty RedisState.empty storeAlwaysOk genId0 0 "sock1"
        ⟨"text", "hi", "alice", "general", ""⟩).2.2.length = 10
  ∧ (publishMessage RedisState.empty "messages"
        ⟨"id0", "text", "hi", "alice", "", "general", 0⟩).published ≠ [] := by
  decide

/-! ## Claim C4 -/

/-- C4: a `message` event with empty content or empty sender fails with an
`"Invalid message data"` error emitted to the originating socket only, and
changes nothing: no delivery, no persistence attempt, registry and store
states returned exactly as given. -/
theorem c4_invalid_message_rejected (st : HandlerState) (r : RedisState)
    (storeOk : Nat → Bool) (genID : Nat → String) (now : Nat) (sid : String)
    (d : MessageData) (h : d.content = "" ∨ d.sender = "") :
    handleMessage st r storeOk genID now sid d
      = (st, r, sendError sid "Invalid message data") := by
  simp [handleMessage, h]

/-- C4 witness. -/
theorem c4_witness :
    handleMessage HandlerState.empty RedisState.empty storeAlwaysOk genId0 0 "sock3"
        ⟨"text", "", "alice", "", ""⟩
      = (HandlerState.empty, RedisState.empty, sendError "sock3" "Invalid message data") :=
  c4_invalid_message_rejected HandlerState.empty RedisState.empty storeAlwaysOk
    genId0 0 "sock3" ⟨"text", "", "alice", "", ""⟩ (Or.inl rfl)

/-! ## Claim C5 -/

/-- C5 counterexample: the claim quantifies over every sequence of join
and leave operations. When the same live socket issues `join` twice (the
handler accepts this and appends the session id again), replaying
`[join s1 alice, join s1 alice, leave s1]` leaves `devicesOf "alice"`
as `[s1]` in the code although `s1` has left, while the spec's
joined-but-not-left reading yields `[]`. -/
theorem c5_counterexample :
    devicesOf (replayOps (HandlerState.empty, RedisState.empty)
        [RegOp.join "s1" "alice" "web" "", RegOp.join "s1" "alice" "web" "",
         RegOp.leave "s1"]).1 "alice"
      ≠ specDevicesOf (specReplay []
        [RegOp.join "s1" "alice" "web" "", RegOp.join "s1" "alice" "web" "",
         RegOp.leave "s1"]) "alice" := by
  decide

/-- C5 (amended): for every *well-formed* sequence of join and leave
operations — each join registers a session id not currently live, which is
what the transport guarantees for distinct connections — the device list
of each identity after replay equals exactly the sessions that joined for
that identity and have not left, in join order; and a leave for a session
that is not registered (never joined, or already left) returns the
registry, the store and the emit list completely unchanged. -/
theorem c5_registry_replay (ops : List RegOp) (h : wf [] ops = true) :
    (∀ u, devicesOf (replayOps (HandlerState.empty, RedisState.empty) ops).1 u
        = specDevicesOf (specReplay [] ops) u)
  ∧ (∀ (st : HandlerState) (r : RedisState) (sid : String),
        GoMap.lookup st.sessions sid = none →
        handleDisconnect st r sid = (st, r, [])) := by
  constructor
  · intro u
    have hInv0 : Inv HandlerState.empty [] :=
      ⟨fun _ => rfl, fun _ => rfl, List.nodup_nil⟩
    exact (inv_replay ops HandlerState.empty RedisState.empty [] hInv0 h).1 u
  · intro st r sid hnone
    simp [handleDisconnect, hnone]

/-- C5 witness: a well-formed five-operation sequence (two devices for
`alice`, a double leave of `s1`, a join for `bob`), checked at `alice`,
plus a leave for a never-joined session id on the empty registry. -/
theorem c5_witness :
    devicesOf (replayOps (HandlerState.empty, RedisState.empty)
        [RegOp.join "s1" "alice" "web" "", RegOp.join "s2" "alice" "phone" "",
         RegOp.leave "s1", RegOp.leave "s1", RegOp.join "s3" "bob" "web" ""]).1 "alice"
      = specDevicesOf (specReplay []
        [RegOp.join "s1" "alice" "web" "", RegOp.join "s2" "alice" "phone" "",
         RegOp.leave "s1", RegOp.leave "s1", RegOp.join "s3" "bob" "web" ""]) "alice"
  ∧ handleDisconnect HandlerState.empty RedisState.empty "ghost"
      = (HandlerState.empty, RedisState.empty, []) :=
  ⟨(c5_registry_replay
      [RegOp.join "s1" "alice" "web" "", RegOp.join "s2" "alice" "phone" "",
       RegOp.leave "s1", RegOp.leave "s1", RegOp.join "s3" "bob" "web" ""]
      (by decide)).1 "alice",
   (c5_registry_replay
      [RegOp.join "s1" "alice" "web" "", RegOp.join "s2" "alice" "phone" "",
       RegOp.leave "s1", RegOp.leave "s1", RegOp.join "s3" "bob" "web" ""]
      (by decide)).2 HandlerState.empty RedisState.empty "ghost" rfl⟩

/-- The handler state in which `alice` has joined with the single device
socket `s1` (shared by several claim checks below). -/
def stOneDevice : HandlerState :=
  (handleJoin HandlerState.empty RedisState.empty "s1" "alice" "web" "" 0).1

/-! ## Claim C6 -/

/-- C6: presence events as a function of registry transitions.
For any handler state whose per-user lists are non-empty when present
(an invariant of all reachable states) and a transport-assigned (hence
non-empty) session id:
1. a join broadcasts `user_status "online"` for an identity iff it is this
   join's identity and its device count goes from 0 to 1;
2. a disconnect broadcasts `user_status "offline"` for an identity iff the
   session belonged to it and was its only device (count 1 to 0);
3. every `device_connected` emit of a join targets only the identity's
   other (pre-existing) sessions, never the joining one;
4. conversely every other session of the identity receives a
   `device_connected` emit;
5. every `device_disconnected` emit of a disconnect targets only the
   identity's remaining sessions;
6. conversely, when a registered session disconnects, every remaining
   session of its identity receives a `device_disconnected` emit (vacuous
   for a final disconnect, whose remaining set is empty);
7. neither handler ever sends a device event to all users: the only
   `server.Emit` broadcasts are `user_status` events. -/
theorem c6_presence_events (st : HandlerState) (r : RedisState)
    (sid u dev av : String) (now : Nat) (hsid : sid ≠ "")
    (hne : ∀ user : User, GoMap.lookup st.sessions sid = some user →
        GoMap.lookup st.userSessions user.id ≠ some []) :
    (∀ u', (Emit.toAll "user_status" (Payload.userStatus u' "online")
        ∈ (handleJoin st r sid u dev av now).2.2)
        ↔ (u' = u ∧ u ≠ "" ∧ devicesOf st u = []))
  ∧ (∀ u', (Emit.toAll "user_status" (Payload.userStatus u' "offline")
        ∈ (handleDisconnect st r sid).2.2)
        ↔ (∃ user : User, GoMap.lookup st.sessions sid = some user ∧ user.id = u'
            ∧ devicesOf st u' = [sid]))
  ∧ (∀ e ∈ (handleJoin st r sid u dev av now).2.2, ∀ s p,
        e = Emit.toRoom s "device_connected" p → s ∈ devicesOf st u ∧ s ≠ sid)
  ∧ (u ≠ "" → ∀ s ∈ devicesOf st u, s ≠ sid →
        ∃ p, Emit.toRoom s "device_connected" p ∈ (handleJoin st r sid u dev av now).2.2)
  ∧ (∀ e ∈ (handleDisconnect st r sid).2.2, ∀ s p,
        e = Emit.toRoom s "device_disconnected" p →
        ∃ user : User, GoMap.lookup st.sessions sid = some user
          ∧ s ∈ devicesOf (handleDisconnect st r sid).1 user.id)
  ∧ (∀ user : User, GoMap.lookup st.sessions sid = some user →
        ∀ s ∈ devicesOf (handleDisconnect st r sid).1 user.id,
        ∃ p, Emit.toRoom s "device_disconnected" p ∈ (handleDisconnect st r sid).2.2)
  ∧ (∀ e, (e ∈ (handleJoin st r sid u dev av now).2.2
        ∨ e ∈ (handleDisconnect st r sid).2.2) →
        ∀ ev p, e = Emit.toAll ev p → ev = "user_status") := by
  refine ⟨?_, ?_, ?_, ?_, ?_, ?_, ?_⟩
  · -- 1: online iff first device
    intro u'
    by_cases hu : u = ""
    · simp [handleJoin, hu, sendError]
    · simp only [devicesOf] at *
      by_cases hfirst : GoMap.lookupD st.userSessions u [] = []
      · simp [handleJoin, hu, hfirst, broadcastUserStatus, broadcastToUserDevices,
          GoMap.lookup_insert_self]
      · have hlen : ¬((GoMap.lookupD st.userSessions u [] ++ [sid]).length = 1) := by
          simp [hfirst]
        simp [handleJoin, hu, hfirst, hlen, broadcastUserStatus, broadcastToUserDevices,
          GoMap.lookup_insert_self]
  · -- 2: offline iff last device
    intro u'
    cases hlook : GoMap.lookup st.sessions sid with
    | none => simp [handleDisconnect, hlook]
    | some user =>
        cases hlk2 : GoMap.lookup st.userSessions user.id with
        | none =>
            simp only [handleDisconnect, hlook, hlk2]
            simp only [List.not_mem_nil, false_iff]
            rintro ⟨user2, hu2, hid2, hdev2⟩
            cases hu2
            rw [devicesOf, GoMap.lookupD, ← hid2, hlk2] at hdev2
            simp at hdev2
        | some l =>
            have hlne : l ≠ [] := by
              intro h
              exact hne user hlook (h ▸ hlk2)
            by_cases hlen : (removeFirst l sid).length = 0
            · have hl : l = [sid] := by
                rcases (removeFirst_eq_nil_iff l sid).mp
                  (List.length_eq_zero.mp hlen) with h | h
                · exact absurd h hlne
                · exact h
              simp only [handleDisconnect, hlook, hlk2, if_pos hlen,
                broadcastUserStatus]
              constructor
              · intro hmem
                simp at hmem
                refine ⟨user, rfl, hmem.symm, ?_⟩
                rw [devicesOf, GoMap.lookupD, hmem, hlk2, hl]
                rfl
              · rintro ⟨user2, hu2, hid2, _⟩
                cases hu2
                simp [hid2]
            · simp only [handleDisconnect, hlook, hlk2, if_neg hlen,
                broadcastToUserDevices]
              constructor
              · intro hmem
                exfalso
                cases hl3 : GoMap.lookup
                    (GoMap.insert st.userSessions user.id (removeFirst l sid))
                    user.id with
                | none => rw [hl3] at hmem; simp at hmem
                | some l2 => rw [hl3] at hmem; simp at hmem
              · rintro ⟨user2, hu2, hid2, hdev2⟩
                cases hu2
                exfalso
                rw [devicesOf, GoMap.lookupD, ← hid2, hlk2] at hdev2
                simp at hdev2
                rw [hdev2] at hlen
                simp [removeFirst] at hlen
  · -- 3: device_connected only to other pre-existing sessions
    intro e he s p hep
    subst hep
    by_cases hu : u = ""
    · simp [handleJoin, hu, sendError] at he
    · simp only [devicesOf] at *
      simp [handleJoin, hu, broadcastUserStatus, broadcastToUserDevices,
        GoMap.lookup_insert_self, hsid] at he
      obtain ⟨a, ⟨ham, hane⟩, rfl, -⟩ := he
      exact ⟨ham, hane⟩
  · -- 4: every other session receives device_connected
    intro hu s hs hssid
    simp only [devicesOf] at *
    refine ⟨Payload.deviceConn (if dev = "" then "Unknown Device" else dev) sid
      ((GoMap.lookupD st.userSessions u [] ++ [sid]).length), ?_⟩
    simp [handleJoin, hu, broadcastUserStatus, broadcastToUserDevices,
      GoMap.lookup_insert_self, hsid]
    exact ⟨hs, hssid⟩
  · -- 5: device_disconnected only to remaining sessions
    intro e he s p hep
    subst hep
    cases hlook : GoMap.lookup st.sessions sid with
    | none => simp [handleDisconnect, hlook] at he
    | some user =>
        cases hlk2 : GoMap.lookup st.userSessions user.id with
        | none => simp [handleDisconnect, hlook, hlk2] at he
        | some l =>
            by_cases hlen : (removeFirst l sid).length = 0
            · simp [handleDisconnect, hlook, hlk2, hlen, broadcastUserStatus] at he
            · refine ⟨user, rfl, ?_⟩
              simp only [handleDisconnect, hlook, hlk2, if_neg hlen,
                broadcastToUserDevices, GoMap.lookup_insert_self] at he
              simp at he
              obtain ⟨a, ham, rfl, -⟩ := he
              simp only [handleDisconnect, hlook, hlk2, if_neg hlen]
              rw [devicesOf, GoMap.lookupD, GoMap.lookup_insert_self]
              exact ham
  · -- 6: every remaining session receives device_disconnected
    intro user hlookEq s hs
    cases hlk2 : GoMap.lookup st.userSessions user.id with
    | none =>
        exfalso
        simp only [handleDisconnect, hlookEq, hlk2] at hs
        rw [devicesOf, GoMap.lookupD, hlk2] at hs
        simp at hs
    | some l =>
        by_cases hlen : (removeFirst l sid).length = 0
        · exfalso
          simp only [handleDisconnect, hlookEq, hlk2, if_pos hlen] at hs
          rw [devicesOf, GoMap.lookupD, GoMap.lookup_erase_self] at hs
          simp at hs
        · refine ⟨Payload.deviceDisc sid (removeFirst l sid).length, ?_⟩
          simp only [handleDisconnect, hlookEq, hlk2, if_neg hlen] at hs ⊢
          rw [devicesOf, GoMap.lookupD, GoMap.lookup_insert_self] at hs
          simp [broadcastToUserDevices, GoMap.lookup_insert_self]
          exact hs
  · -- 7: server-wide emits are user_status only
    intro e hee ev p hep
    subst hep
    rcases hee with he | he
    · by_cases hu : u = ""
      · simp [handleJoin, hu, sendError] at he
      · by_cases hfirst : GoMap.lookupD st.userSessions u [] = []
        · simp [handleJoin, hu, hfirst, devicesOf, broadcastUserStatus,
            broadcastToUserDevices, GoMap.lookup_insert_self] at he
          exact he.1
        · have hlen : ¬((GoMap.lookupD st.userSessions u [] ++ [sid]).length = 1) := by
            simp [hfirst]
          simp [handleJoin, hu, hfirst, hlen, devicesOf, broadcastUserStatus,
            broadcastToUserDevices, GoMap.lookup_insert_self] at he
    · cases hlook : GoMap.lookup st.sessions sid with
      | none => simp [handleDisconnect, hlook] at he
      | some user =>
          cases hlk2 : GoMap.lookup st.userSessions user.id with
          | none => simp [handleDisconnect, hlook, hlk2] at he
          | some l =>
              by_cases hlen : (removeFirst l sid).length = 0
              · simp [handleDisconnect, hlook, hlk2, hlen,
                  broadcastUserStatus] at he
                exact he.1
              · simp [handleDisconnect, hlook, hlk2, hlen,
                  broadcastToUserDevices, GoMap.lookup_insert_self] at he

/-- The one-device state and `User` record used by the C6 witness. -/
def userS1 : User :=
  { id := "alice", name := "alice", avatar := "", status := "online",
    lastSeen := 0, deviceInfo := "web", sessionId := "s1" }

/-- C6 witness: on the state where `alice` has the single device `s1`,
disconnecting `s1` broadcasts `user_status "offline"` for `alice`. -/
theorem c6_witness :
    Emit.toAll "user_status" (Payload.userStatus "alice" "offline")
      ∈ (handleDisconnect stOneDevice RedisState.empty "s1").2.2 := by
  have hne : ∀ user : User, GoMap.lookup stOneDevice.sessions "s1" = some user →
      GoMap.lookup stOneDevice.userSessions user.id ≠ some [] := by
    intro user h
    rw [show GoMap.lookup stOneDevice.sessions "s1" = some userS1 by decide] at h
    cases h
    decide
  exact ((c6_presence_events stOneDevice RedisState.empty "s1" "bob" "web" "" 0
    (by decide) hne).2.1 "alice").mpr ⟨userS1, by decide, rfl, by decide⟩

/-! ## Claim C7 -/

/-- C7 counterexample: the claim says a message has exactly one target
mode, never more than one, enforced by construction. `handleMessage`
builds its outgoing message directly from the client-supplied fields with
no exclusivity check, so a client event carrying both `roomId` and
`receiver` yields a broadcast message with both `room` and `receiver`
non-empty, as the first broadcast message of this run shows explicitly. -/
theorem c7_counterexample :
    (msgEmitsOf (handleMessage HandlerState.empty RedisState.empty storeAlwaysOk
        genId0 0 "sock1" ⟨"text", "hi", "alice", "r1", "bob"⟩).2.2).head?
      = some { id := "id0", type := "text", content := "hiMessage 0",
               sender := "alice", receiver := "bob", room := "r1", timestamp := 0 } := by
  decide

/-- C7 (amended): target-mode uniqueness is not enforced by construction
(a message can carry both a room and a receiver), but `broadcastMessage`
still delivers through exactly one path, with priority room, then
receiver, then global broadcast. -/
theorem c7_single_delivery_path (st : HandlerState) (m : Message) :
    (m.room ≠ "" → broadcastMessage st m = [Emit.toRoom m.room "message" (Payload.msg m)])
  ∧ (m.room = "" → m.receiver ≠ "" →
      broadcastMessage st m
        = broadcastToUserDevices st m.receiver "message" (Payload.msgWrap m) "")
  ∧ (m.room = "" → m.receiver = "" →
      broadcastMessage st m = [Emit.toAll "message" (Payload.msg m)]) := by
  refine ⟨fun h => ?_, fun h1 h2 => ?_, fun h1 h2 => ?_⟩
  · simp [broadcastMessage, h]
  · simp [broadcastMessage, h1, h2]
  · simp [broadcastMessage, h1, h2]

/-- C7 witness. -/
theorem c7_witness :
    broadcastMessage HandlerState.empty
        ⟨"idw", "text", "x", "alice", "bob", "r1", 0⟩
      = [Emit.toRoom "r1" "message"
          (Payload.msg ⟨"idw", "text", "x", "alice", "bob", "r1", 0⟩)] :=
  (c7_single_delivery_path HandlerState.empty
      ⟨"idw", "text", "x", "alice", "bob", "r1", 0⟩).1 (by decide)

/-! ## Claim C8 -/

/-- A receiver-targeted relay envelope addressed to `alice`. -/
def envAlice : Message :=
  { id := "m1", type := "text", content := "x", sender := "bob",
    receiver := "alice", room := "", timestamp := 0 }

/-- C8 counterexample: the claim says the relay subscriber deduplicates by
message id per socket. The subscriber callback is plain `broadcastMessage`
with no recently-seen-id state: delivering the identical envelope (same
message id `m1`) twice produces two deliveries to the same still-connected
socket `s1`, not at most one. -/
theorem c8_counterexample :
    subscribeProcess stOneDevice [envAlice, envAlice]
      = [Emit.toRoom "s1" "message" (Payload.msgWrap envAlice),
         Emit.toRoom "s1" "message" (Payload.msgWrap envAlice)] := by
  decide

/-- C8 (amended): the relay subscriber keeps no dedup state: each received
envelope is handed to `broadcastMessage` afresh, so replaying the same
envelope n times multiplies the deliveries n-fold instead of capping them
at one per socket. -/
theorem c8_no_dedup_in_subscriber (st : HandlerState) (m : Message)
    (envs : List Message) :
    subscribeProcess st (envs ++ [m]) = subscribeProcess st envs ++ broadcastMessage st m
  ∧ subscribeProcess st [m, m] = broadcastMessage st m ++ broadcastMessage st m := by
  constructor
  · simp [subscribeProcess]
  · simp [subscribeProcess]

/-! ## Claim C10 -/

/-- C10: the Redis `user_session:<user>` record is a plain SET holding a
single session id, overwritten on every join; consequently when a
multi-device user's most recently stored device disconnects while other
devices stay connected, the stored record still names the now-dead session
while the in-memory `userSessions` list alone tracks the live device set. -/
theorem c10_stale_session_record (st : HandlerState) (r : RedisState)
    (s u dev av : String) (now : Nat) (user : User) (hu : u ≠ "") :
    GoMap.lookup (handleJoin st r s u dev av now).2.1.userSession u = some s
  ∧ (GoMap.lookup st.sessions s = some user → user.id = u →
      GoMap.lookup r.userSession u = some s →
      removeFirst (devicesOf st u) s ≠ [] →
      GoMap.lookup (handleDisconnect st r s).2.1.userSession u = some s
      ∧ GoMap.lookup (handleDisconnect st r s).1.sessions s = none
      ∧ devicesOf (handleDisconnect st r s).1 u ≠ []) := by
  constructor
  · simp [handleJoin, hu, storeUserSession, GoMap.lookup_insert_self]
  · intro hlook hid hstored hrem
    cases hlk2 : GoMap.lookup st.userSessions u with
    | none =>
        exfalso
        rw [devicesOf, GoMap.lookupD, hlk2] at hrem
        simp [removeFirst] at hrem
    | some l =>
        have hdevl : devicesOf st u = l := by
          rw [devicesOf, GoMap.lookupD, hlk2]
          rfl
        rw [hdevl] at hrem
        have hlen : ¬(removeFirst l s).length = 0 := by
          intro h
          exact hrem (List.length_eq_zero.mp h)
        simp only [handleDisconnect, hlook, hid, hlk2, if_neg hlen]
        refine ⟨hstored, GoMap.lookup_erase_self st.sessions s, ?_⟩
        rw [devicesOf, GoMap.lookupD, GoMap.lookup_insert_self]
        simpa using hrem

/-- `alice` joined on `s1` then `s2`, states threaded through both joins. -/
def joinTwo : HandlerState × RedisState × List Emit :=
  handleJoin stOneDevice
    (handleJoin HandlerState.empty RedisState.empty "s1" "alice" "web" "" 0).2.1
    "s2" "alice" "phone" "" 0

def stTwoDevices : HandlerState := joinTwo.1

def rTwoDevices : RedisState := joinTwo.2.1

/-- The `User` record the second join registers for socket `s2`. -/
def userS2 : User :=
  { id := "alice", name := "alice", avatar := "", status := "online",
    lastSeen := 0, deviceInfo := "phone", sessionId := "s2" }

/-- C10 witness: `alice` on devices `s1`, `s2` (Redis records `s2`, the
newest); disconnecting `s2` leaves the record pointing at dead `s2` while
`s1` stays live. -/
theorem c10_witness :
    GoMap.lookup (handleJoin stOneDevice
        { RedisState.empty with userSession := [("alice", "s1")] }
        "s2" "alice" "phone" "" 0).2.1.userSession "alice" = some "s2"
  ∧ (GoMap.lookup (handleDisconnect stTwoDevices rTwoDevices "s2").2.1.userSession
        "alice" = some "s2"
      ∧ GoMap.lookup (handleDisconnect stTwoDevices rTwoDevices "s2").1.sessions "s2"
          = none
      ∧ devicesOf (handleDisconnect stTwoDevices rTwoDevices "s2").1 "alice" ≠ []) :=
  ⟨(c10_stale_session_record stOneDevice
      { RedisState.empty with userSession := [("alice", "s1")] }
      "s2" "alice" "phone" "" 0 userS2 (by decide)).1,
   (c10_stale_session_record stTwoDevices rTwoDevices "s2" "alice" "phone" "" 0
      userS2 (by decide)).2 (by decide) (by decide) (by decide) (by decide)⟩

end IMDemo
